import Mathlib

/-! # webshell: the link-overlay navigation state machine

A shallow embedding of the Go sources

* `internal/browser/browser.go` (`Link`, `BrowserState` and its methods,
  `CaptureAndDisplayWebpage`, `BrowseURL`, `HasPrefix`),
* `internal/ui/terminal.go` (`DisplaySelectedLink`, `HandleInput`),
* `cmd/webshell/main.go` (the main loop),

followed by the properties of the navigation state machine.

Conventions of the embedding.

* Go `int` is `Int`.  The only arithmetic in the embedded code is
  `selectedLink - 1` under the guard `selectedLink > 0`, `totalLinks - 1` with
  `totalLinks = len(..) ≥ 0`, and `selectedLink + 1` under the guard
  `selectedLink < totalLinks - 1`; none of them can leave the 64-bit range.
* A Go string is a Lean `String`; `len` and slicing count characters where the
  Go code counts bytes.  UTF-8 is a prefix code, so for strings of valid
  UTF-8 one is a prefix of another by bytes exactly when it is by characters,
  and the characters of `http://`, `https://` and `quit` are one byte each.
* A Go run-time panic (index or slice out of range) is the value `none`.
* The collaborators (browser, keyboard, prompt) are scripted: their answers
  are inputs of the model, and what the program does to them and to the
  terminal is recorded as a list of `Event`s.  Writes to the log file are left
  out.
-/

namespace Webshell

/-! ## Data model (`browser.go`) -/

/-- Link represents a hyperlink on a webpage. -/
structure Link where
  X1 : Int
  Y1 : Int
  X2 : Int
  Y2 : Int
  URL : String
deriving DecidableEq, Repr

/-- BrowserState holds the current state of the browser. -/
structure BrowserState where
  ViewportWidth : Int
  ViewportHeight : Int
  ImageWidth : Int
  ImageHeight : Int
  Links : List Link
  SelectedLink : Int
deriving DecidableEq, Repr

/-- NewBrowserState creates a new browser state; the fields that the Go
composite literal leaves out take their zero values. -/
def NewBrowserState (width height : Int) : BrowserState :=
  { ViewportWidth := width
    ViewportHeight := height
    ImageWidth := 0
    ImageHeight := 0
    Links := []
    SelectedLink := 0 }

/-- GetSelectedLink returns the currently selected link index. -/
def BrowserState.GetSelectedLink (s : BrowserState) : Int :=
  s.SelectedLink

/-- SetSelectedLink updates the selected link index (no clamping). -/
def BrowserState.SetSelectedLink (s : BrowserState) (index : Int) : BrowserState :=
  { s with SelectedLink := index }

/-- GetTotalLinks returns the total number of links, `len(s.Links)`. -/
def BrowserState.GetTotalLinks (s : BrowserState) : Int :=
  (s.Links.length : Int)

/-- Go indexing `xs[i]` of a slice by an `int`: a run-time panic (`none`) when
the index is negative or not below the length. -/
def goIndex {α : Type} (xs : List α) (i : Int) : Option α :=
  if 0 ≤ i then xs[i.toNat]? else none

/-- GetLinkURL returns the URL of the link at the specified index.  The result
is `none` if the indexing `s.Links[index]` panics, `some url` otherwise.  The
method only reads its receiver. -/
def BrowserState.GetLinkURL (s : BrowserState) (index : Int) : Option String :=
  if index ≥ 0 ∧ index < (s.Links.length : Int) then
    (goIndex s.Links index).map Link.URL
  else
    some ""

/-! ## Terminal and collaborator events -/

/-- What the program does to its collaborators, in order. -/
inductive Event where
  /-- The call `ui.DisplayPrompt()`: clear screen, logo, prompt text, read one line. -/
  | prompt
  /-- The call `chromedp.Run(ctx, chromedp.Navigate(url))`. -/
  | navigate (url : String)
  /-- The call `chromedp.Run(ctx, WaitReady, FullScreenshot)`. -/
  | screenshot
  /-- The call `ui.ResetTerminal()`. -/
  | resetTerminal
  /-- The call `GetPageLinks(ctx)`. -/
  | pageLinks
  /-- The call `ui.DisplayImage(imageData)`. -/
  | image (data : List Nat)
  /-- The status bar painted by `DisplaySelectedLink`: ` [sel+1/total] url `. -/
  | statusLine (shown total : Int) (url : String)
  /-- A call of `keyboard.GetKey()` returned. -/
  | key
  /-- Clear screen and `Navigating to link...` printed on Enter. -/
  | navigatingNotice
  /-- The call `chromedp.Run(ctx, chromedp.Location(&currentURL))`. -/
  | location
  /-- An error message printed with `fmt.Printf`. -/
  | printed (msg : String)
  /-- The final clear screen of `main`, reached only after the loop ends. -/
  | exitClear
  /-- A Go run-time panic. -/
  | panicked
deriving DecidableEq, Repr

/-! ## Keyboard (`github.com/eiannone/keyboard`, external) -/

/-- The `keyboard.Key` values the program distinguishes: the three library
constants it compares with, and every other key code. -/
inductive Key where
  | KeyArrowUp
  | KeyArrowDown
  | KeyEnter
  | other (code : Nat)
deriving DecidableEq, Repr

/-- One result `(char, key, err)` of `keyboard.GetKey()`; `err = none` is Go's
`nil` error. -/
structure KeyRead where
  char : Nat
  key : Key
  err : Option String
deriving DecidableEq, Repr

/-! ## `terminal.go` -/

/-- DisplaySelectedLink shows information about the currently selected link:
the events it writes to the terminal, or `none` if it panics.  A
`*BrowserState` always satisfies the interface of the type assertion. -/
def DisplaySelectedLink (state : BrowserState) : Option (List Event) :=
  let selectedLink := state.GetSelectedLink
  let totalLinks := state.GetTotalLinks
  if selectedLink ≥ 0 ∧ selectedLink < totalLinks then
    match state.GetLinkURL selectedLink with
    | none => none
    | some linkURL => some [Event.statusLine (selectedLink + 1) totalLinks linkURL]
  else
    some []

/-- The three results `(quit, reload, err)` of `HandleInput`, with the state
after the call and the terminal events of the call. -/
structure InputResult where
  state : BrowserState
  quit : Bool
  reload : Bool
  err : Option String
  out : List Event
deriving DecidableEq, Repr

/-- The statements of `HandleInput` after the `switch`: the quit character. -/
def HandleInput.afterSwitch (state : BrowserState) (char : Nat) : InputResult :=
  if char = 'q'.toNat ∨ char = 'Q'.toNat then
    { state := state, quit := true, reload := false, err := none, out := [] }
  else
    { state := state, quit := false, reload := false, err := none, out := [] }

/-- HandleInput processes keyboard input during browsing.  `read` is what
`keyboard.GetKey()` returns in this call.  The result is `none` if the call
panics.  A `*BrowserState` always satisfies the interface of the type
assertion, so `setSelectedLink` is the state's `SetSelectedLink`. -/
def HandleInput (state : BrowserState) (read : KeyRead) : Option InputResult :=
  let selectedLink := state.GetSelectedLink
  let totalLinks := state.GetTotalLinks
  match read.err with
  | some e =>
    some { state := state, quit := false, reload := false, err := some e, out := [] }
  | none =>
    match read.key with
    | Key.KeyArrowUp =>
      if selectedLink > 0 then
        let state1 := state.SetSelectedLink (selectedLink - 1)
        match DisplaySelectedLink state1 with
        | none => none
        | some evs =>
          some { state := state1, quit := false, reload := false, err := none, out := evs }
      else
        some { state := state, quit := false, reload := false, err := none, out := [] }
    | Key.KeyArrowDown =>
      if selectedLink < totalLinks - 1 then
        let state1 := state.SetSelectedLink (selectedLink + 1)
        match DisplaySelectedLink state1 with
        | none => none
        | some evs =>
          some { state := state1, quit := false, reload := false, err := none, out := evs }
      else
        some { state := state, quit := false, reload := false, err := none, out := [] }
    | Key.KeyEnter =>
      if selectedLink ≥ 0 ∧ selectedLink < totalLinks then
        some { state := state, quit := false, reload := true, err := none,
               out := [Event.navigatingNotice] }
      else
        some (HandleInput.afterSwitch state read.char)
    | Key.other _ =>
      some (HandleInput.afterSwitch state read.char)

/-! ## `browser.go`: capture, browsing session, prefix test -/

/-- The answers of the collaborators during one `CaptureAndDisplayWebpage`:
the screenshot (or the error of `chromedp.Run`), the error of `os.WriteFile`,
the bytes read back by `os.ReadFile` (or its error), and the result of
`GetPageLinks` (the links in document order, or its error). -/
structure CaptureEnv where
  screenshot : Except String (List Nat)
  writeFile : Option String
  readFile : Except String (List Nat)
  pageLinks : Except String (List Link)

/-- The error returned by `CaptureAndDisplayWebpage` (`none` is `nil`), the
state after the call and the events of the call. -/
structure CaptureResult where
  state : BrowserState
  err : Option String
  out : List Event
deriving DecidableEq, Repr

/-- CaptureAndDisplayWebpage takes a screenshot and displays it; `none` if the
call panics.  The temporary file itself is not modelled, only the outcome of
writing and reading it. -/
def CaptureAndDisplayWebpage (env : CaptureEnv) (state : BrowserState) :
    Option CaptureResult :=
  match env.screenshot with
  | Except.error e =>
    some { state := state, err := some ("failed to capture screenshot: " ++ e),
           out := [Event.screenshot] }
  | Except.ok _ =>
    match env.writeFile with
    | some e =>
      some { state := state, err := some ("failed to save screenshot: " ++ e),
             out := [Event.screenshot] }
    | none =>
      match env.readFile with
      | Except.error e =>
        some { state := state, err := some ("failed to read screenshot: " ++ e),
               out := [Event.screenshot] }
      | Except.ok imageData =>
        match env.pageLinks with
        | Except.error e =>
          some { state := state, err := some ("failed to get links: " ++ e),
                 out := [Event.screenshot, Event.resetTerminal, Event.pageLinks] }
        | Except.ok links =>
          let state1 := { state with Links := links }
          let state2 := { state1 with SelectedLink := 0 }
          if (state2.Links.length : Int) > 0 then
            match DisplaySelectedLink state2 with
            | none => none
            | some evs =>
              some { state := state2, err := none,
                     out := [Event.screenshot, Event.resetTerminal, Event.pageLinks,
                             Event.image imageData] ++ evs }
          else
            some { state := state2, err := none,
                   out := [Event.screenshot, Event.resetTerminal, Event.pageLinks,
                           Event.image imageData] }

/-- Go slicing `s[lo:hi]` of a string: a run-time panic (`none`) unless
`lo ≤ hi ≤ len(s)`. -/
def goSlice (s : String) (lo hi : Nat) : Option String :=
  if lo ≤ hi ∧ hi ≤ s.length then some ⟨(s.data.take hi).drop lo⟩ else none

/-- HasPrefix, the helper function to check a string prefix; `none` if the
slice expression panics. -/
def HasPrefix (s pre : String) : Option Bool :=
  if s.length < pre.length then
    some false
  else
    match goSlice s 0 pre.length with
    | none => none
    | some t => some (decide (t = pre))

/-- The scripted browser: the error of the `n`-th `Navigate` call (by URL), the
collaborator answers of the `n`-th capture, and the result of the `n`-th
`Location` query. -/
structure Collab where
  navigate : Nat → String → Option String
  capture : Nat → CaptureEnv
  location : Nat → Except String String

/-- How many calls of each kind the browser has answered so far. -/
structure Calls where
  nav : Nat
  cap : Nat
  loc : Nat
deriving DecidableEq, Repr

/-- How a call ended: it returned, it waits for input that the script does not
hold, or it panicked. -/
inductive Outcome where
  | returned
  | blocked
  | panicked
deriving DecidableEq, Repr

/-- What `BrowseURL` leaves behind: the browser call counters, the unread
keys, the state, the final values of its locals `url` and `shouldQuit`, how it
ended, and its events. -/
structure BrowseResult where
  calls : Calls
  keys : List KeyRead
  state : BrowserState
  url : String
  shouldQuit : Bool
  outcome : Outcome
  trace : List Event
deriving DecidableEq, Repr

/-- The `for` loop of `BrowseURL` that processes user input while browsing,
together with the statements after it.  Each iteration reads one key. -/
def BrowseURL.inputLoop (c : Collab) (calls : Calls) (url : String) :
    BrowserState → List KeyRead → BrowseResult
  | state, [] =>
    { calls := calls, keys := [], state := state, url := url, shouldQuit := false,
      outcome := Outcome.blocked, trace := [] }
  | state, read :: rest =>
    match HandleInput state read with
    | none =>
      { calls := calls, keys := rest, state := state, url := url, shouldQuit := false,
        outcome := Outcome.panicked, trace := [Event.key, Event.panicked] }
    | some r =>
      match r.err with
      | some _ =>
        let b := BrowseURL.inputLoop c calls url r.state rest
        { b with trace := Event.key :: r.out ++ b.trace }
      | none =>
        if r.quit then
          { calls := calls, keys := rest, state := r.state, url := url, shouldQuit := true,
            outcome := Outcome.returned, trace := Event.key :: r.out }
        else if r.reload then
          match c.location calls.loc with
          | Except.error _ =>
            { calls := { calls with loc := calls.loc + 1 }, keys := rest, state := r.state,
              url := url, shouldQuit := false, outcome := Outcome.returned,
              trace := Event.key :: r.out ++ [Event.location] }
          | Except.ok currentURL =>
            { calls := { calls with loc := calls.loc + 1 }, keys := rest, state := r.state,
              url := currentURL, shouldQuit := false, outcome := Outcome.returned,
              trace := Event.key :: r.out ++ [Event.location] }
        else
          let b := BrowseURL.inputLoop c calls url r.state rest
          { b with trace := Event.key :: r.out ++ b.trace }

/-- BrowseURL handles the browsing session for a specific URL. -/
def BrowseURL (c : Collab) (calls : Calls) (url : String) (state : BrowserState)
    (keys : List KeyRead) : BrowseResult :=
  let calls1 := { calls with nav := calls.nav + 1 }
  match c.navigate calls.nav url with
  | some e =>
    { calls := calls1, keys := keys, state := state, url := url, shouldQuit := false,
      outcome := Outcome.returned,
      trace := [Event.navigate url, Event.printed ("Error navigating: " ++ e ++ "\n")] }
  | none =>
    let calls2 := { calls1 with cap := calls1.cap + 1 }
    match CaptureAndDisplayWebpage (c.capture calls1.cap) state with
    | none =>
      { calls := calls2, keys := keys, state := state, url := url, shouldQuit := false,
        outcome := Outcome.panicked, trace := [Event.navigate url, Event.panicked] }
    | some r =>
      match r.err with
      | some e =>
        { calls := calls2, keys := keys, state := r.state, url := url, shouldQuit := false,
          outcome := Outcome.returned,
          trace := Event.navigate url :: r.out ++ [Event.printed ("Error: " ++ e ++ "\n")] }
      | none =>
        let b := BrowseURL.inputLoop c calls2 url r.state keys
        { b with trace := Event.navigate url :: r.out ++ b.trace }

/-! ## `main.go`: the main application loop -/

/-- The statement of the main loop that ensures the URL has a proper scheme
(`main.go`, lines 57-60); `none` if a `HasPrefix` call panics.  The second
`HasPrefix` call is evaluated only when the first is false (`&&`). -/
def main.ensureScheme (url : String) : Option String :=
  match HasPrefix url "http://" with
  | none => none
  | some true => some url
  | some false =>
    match HasPrefix url "https://" with
    | none => none
    | some true => some url
    | some false => some ("https://" ++ url)

/-- What one pass of the main loop does with the line read at the prompt:
leave the loop, call `BrowseURL` with a URL, or panic. -/
inductive LoopStep where
  | leave
  | browse (url : String)
  | panicked
deriving DecidableEq, Repr

/-- The body of the main loop up to the call of `BrowseURL` (`main.go`, lines
52-63), for the line that `DisplayPrompt` returned. -/
def main.loopStep (line : String) : LoopStep :=
  if line = "quit" then
    LoopStep.leave
  else
    match main.ensureScheme line with
    | none => LoopStep.panicked
    | some url => LoopStep.browse url

/-- The main application loop followed by the clear screen on exit.  `lines`
are the lines typed at the successive prompts and `keys` the keys pressed;
when a script runs out the program waits and the trace ends there. -/
def main.loop (c : Collab) : Calls → BrowserState → List String → List KeyRead → List Event
  | _, _, [], _ => [Event.prompt]
  | calls, state, line :: lines, keys =>
    match main.loopStep line with
    | LoopStep.leave => [Event.prompt, Event.exitClear]
    | LoopStep.panicked => [Event.prompt, Event.panicked]
    | LoopStep.browse url =>
      let b := BrowseURL c calls url state keys
      match b.outcome with
      | Outcome.returned => Event.prompt :: b.trace ++ main.loop c b.calls b.state lines b.keys
      | _ => Event.prompt :: b.trace

/-- The program after a successful start-up (logging, keyboard, browser and
viewport set up): the state is created with a 1024 by 800 viewport and the
main loop runs. -/
def main (c : Collab) (lines : List String) (keys : List KeyRead) : List Event :=
  main.loop c { nav := 0, cap := 0, loc := 0 } (NewBrowserState 1024 800) lines keys

/-! ## Specification-side definitions -/

/-- The selection-bounds invariant: `0 ≤ SelectedLink < len(Links)`. -/
def SelectionInBounds (s : BrowserState) : Prop :=
  0 ≤ s.SelectedLink ∧ s.SelectedLink < (s.Links.length : Int)

instance (s : BrowserState) : Decidable (SelectionInBounds s) :=
  inferInstanceAs (Decidable (0 ≤ s.SelectedLink ∧ s.SelectedLink < (s.Links.length : Int)))

/-- The state after `HandleInput` has handled the given key reads one after
the other (`none` if one of the calls panics). -/
def runKeys : BrowserState → List KeyRead → Option BrowserState
  | s, [] => some s
  | s, read :: rest =>
    match HandleInput s read with
    | none => none
    | some r => runKeys r.state rest

/-- The state after the given key reads if each of them makes the input loop
of `BrowseURL` go round again (a failed read, or a result with neither `quit`
nor `reload`); `none` otherwise. -/
def idleKeys : BrowserState → List KeyRead → Option BrowserState
  | s, [] => some s
  | s, read :: rest =>
    match HandleInput s read with
    | none => none
    | some r =>
      if r.err.isSome ∨ (r.quit = false ∧ r.reload = false) then idleKeys r.state rest
      else none

/-- The string `s` starts with the string `p`. -/
def StartsWith (s p : String) : Prop :=
  ∃ t : String, s = p ++ t

/-- The collaborator answers of a capture in which every step succeeds and
`GetPageLinks` returns `links`. -/
def CaptureEnv.success (shot img : List Nat) (links : List Link) : CaptureEnv :=
  { screenshot := Except.ok shot, writeFile := none, readFile := Except.ok img,
    pageLinks := Except.ok links }

/-! ### Examples used by the witnesses -/

/-- Three links `A`, `B`, `C`. -/
def exampleLinks : List Link :=
  [⟨0, 0, 10, 10, "https://example.com/A"⟩, ⟨0, 20, 10, 30, "https://example.com/B"⟩,
   ⟨0, 40, 10, 50, "https://example.com/C"⟩]

/-- A state showing the three example links, the second one selected. -/
def exampleState : BrowserState :=
  { ViewportWidth := 1024, ViewportHeight := 800, ImageWidth := 0, ImageHeight := 0,
    Links := exampleLinks, SelectedLink := 1 }

/-- An ArrowDown key read. -/
def arrowDown : KeyRead := ⟨0, Key.KeyArrowDown, none⟩

/-- An ArrowUp key read. -/
def arrowUp : KeyRead := ⟨0, Key.KeyArrowUp, none⟩

/-- An Enter key read. -/
def enter : KeyRead := ⟨0, Key.KeyEnter, none⟩

/-- The raw character `q`. -/
def charQ : KeyRead := ⟨113, Key.other 0, none⟩

/-- A browser in which every navigation and every capture succeeds, every page
shows the three example links, and the current location is
`https://example.com/`. -/
def exampleCollab : Collab :=
  { navigate := fun _ _ => none
    capture := fun _ => CaptureEnv.success [137, 80] [137, 80] exampleLinks
    location := fun _ => Except.ok "https://example.com/" }

/-! ## Basic facts -/

theorem goIndex_natCast {α : Type} (xs : List α) (k : Nat) (hk : k < xs.length) :
    goIndex xs (k : Int) = some (xs.get ⟨k, hk⟩) := by
  simp [goIndex, List.getElem?_eq_getElem hk]

theorem GetLinkURL_natCast (s : BrowserState) (k : Nat) (hk : k < s.Links.length) :
    s.GetLinkURL (k : Int) = some (s.Links.get ⟨k, hk⟩).URL := by
  have h : (k : Int) < (s.Links.length : Int) := by exact_mod_cast hk
  simp [BrowserState.GetLinkURL, h, goIndex_natCast s.Links k hk]

theorem GetLinkURL_outside (s : BrowserState) (i : Int)
    (h : i < 0 ∨ (s.Links.length : Int) ≤ i) : s.GetLinkURL i = some "" := by
  have : ¬ (i ≥ 0 ∧ i < (s.Links.length : Int)) := by omega
  simp [BrowserState.GetLinkURL, this]

theorem GetLinkURL_isSome (s : BrowserState) (i : Int) : ∃ u, s.GetLinkURL i = some u := by
  by_cases h : i ≥ 0 ∧ i < (s.Links.length : Int)
  · obtain ⟨k, rfl⟩ := Int.eq_ofNat_of_zero_le h.1
    have hk : k < s.Links.length := by exact_mod_cast h.2
    exact ⟨_, GetLinkURL_natCast s k hk⟩
  · exact ⟨"", GetLinkURL_outside s i (by omega)⟩

theorem DisplaySelectedLink_isSome (s : BrowserState) :
    ∃ evs, DisplaySelectedLink s = some evs := by
  obtain ⟨u, hu⟩ := GetLinkURL_isSome s s.SelectedLink
  by_cases h : s.SelectedLink ≥ 0 ∧ s.SelectedLink < (s.Links.length : Int)
  · exact ⟨[Event.statusLine (s.SelectedLink + 1) (s.Links.length : Int) u],
      by simp [DisplaySelectedLink, BrowserState.GetSelectedLink,
        BrowserState.GetTotalLinks, h, hu]⟩
  · exact ⟨[], by simp only [DisplaySelectedLink, BrowserState.GetSelectedLink,
      BrowserState.GetTotalLinks, h, if_false]⟩

theorem HandleInput_readError (s : BrowserState) (c : Nat) (k : Key) (e : String) :
    HandleInput s ⟨c, k, some e⟩ =
      some { state := s, quit := false, reload := false, err := some e, out := [] } := by
  simp [HandleInput]

theorem HandleInput_up_move (s : BrowserState) (c : Nat) (h : s.SelectedLink > 0) :
    ∃ out, HandleInput s ⟨c, Key.KeyArrowUp, none⟩ =
      some { state := { s with SelectedLink := s.SelectedLink - 1 }, quit := false,
             reload := false, err := none, out := out } := by
  obtain ⟨evs, hevs⟩ := DisplaySelectedLink_isSome { s with SelectedLink := s.SelectedLink - 1 }
  exact ⟨evs, by simp [HandleInput, BrowserState.GetSelectedLink, BrowserState.SetSelectedLink,
    h, hevs]⟩

theorem HandleInput_up_stay (s : BrowserState) (c : Nat) (h : ¬ s.SelectedLink > 0) :
    HandleInput s ⟨c, Key.KeyArrowUp, none⟩ =
      some { state := s, quit := false, reload := false, err := none, out := [] } := by
  simp [HandleInput, BrowserState.GetSelectedLink, h]

theorem HandleInput_down_move (s : BrowserState) (c : Nat)
    (h : s.SelectedLink < (s.Links.length : Int) - 1) :
    ∃ out, HandleInput s ⟨c, Key.KeyArrowDown, none⟩ =
      some { state := { s with SelectedLink := s.SelectedLink + 1 }, quit := false,
             reload := false, err := none, out := out } := by
  obtain ⟨evs, hevs⟩ := DisplaySelectedLink_isSome { s with SelectedLink := s.SelectedLink + 1 }
  exact ⟨evs, by simp [HandleInput, BrowserState.GetSelectedLink, BrowserState.SetSelectedLink,
    BrowserState.GetTotalLinks, h, hevs]⟩

theorem HandleInput_down_stay (s : BrowserState) (c : Nat)
    (h : ¬ s.SelectedLink < (s.Links.length : Int) - 1) :
    HandleInput s ⟨c, Key.KeyArrowDown, none⟩ =
      some { state := s, quit := false, reload := false, err := none, out := [] } := by
  simp [HandleInput, BrowserState.GetSelectedLink, BrowserState.GetTotalLinks, h]

theorem HandleInput_enter_valid (s : BrowserState) (c : Nat) (h : SelectionInBounds s) :
    HandleInput s ⟨c, Key.KeyEnter, none⟩ =
      some { state := s, quit := false, reload := true, err := none,
             out := [Event.navigatingNotice] } := by
  have h1 := h.1
  have h2 := h.2
  simp [HandleInput, BrowserState.GetSelectedLink, BrowserState.GetTotalLinks, h1, h2]

theorem HandleInput_enter_invalid (s : BrowserState) (c : Nat) (h : ¬ SelectionInBounds s) :
    HandleInput s ⟨c, Key.KeyEnter, none⟩ = some (HandleInput.afterSwitch s c) := by
  have h' : ¬ (s.SelectedLink ≥ 0 ∧ s.SelectedLink < (s.Links.length : Int)) := h
  simp only [HandleInput, BrowserState.GetSelectedLink, BrowserState.GetTotalLinks, h', if_false]

theorem HandleInput_other (s : BrowserState) (c code : Nat) :
    HandleInput s ⟨c, Key.other code, none⟩ = some (HandleInput.afterSwitch s c) := by
  simp [HandleInput]

theorem afterSwitch_state (s : BrowserState) (c : Nat) :
    (HandleInput.afterSwitch s c).state = s := by
  unfold HandleInput.afterSwitch; split <;> rfl

theorem afterSwitch_reload (s : BrowserState) (c : Nat) :
    (HandleInput.afterSwitch s c).reload = false := by
  unfold HandleInput.afterSwitch; split <;> rfl

/-- Every call of `HandleInput` returns, keeps the link sequence, and keeps the
selection in bounds if it was. -/
theorem HandleInput_spec (s : BrowserState) (read : KeyRead) :
    ∃ r, HandleInput s read = some r ∧ r.state.Links = s.Links ∧
      (SelectionInBounds s → SelectionInBounds r.state) := by
  obtain ⟨c, k, e⟩ := read
  cases e with
  | some e => exact ⟨_, HandleInput_readError s c k e, rfl, id⟩
  | none =>
    cases k with
    | KeyArrowUp =>
      by_cases h : s.SelectedLink > 0
      · obtain ⟨out, ho⟩ := HandleInput_up_move s c h
        refine ⟨_, ho, rfl, fun hb => ?_⟩
        have h2 := hb.2
        exact ⟨by show 0 ≤ s.SelectedLink - 1; omega,
               by show s.SelectedLink - 1 < (s.Links.length : Int); omega⟩
      · exact ⟨_, HandleInput_up_stay s c h, rfl, id⟩
    | KeyArrowDown =>
      by_cases h : s.SelectedLink < (s.Links.length : Int) - 1
      · obtain ⟨out, ho⟩ := HandleInput_down_move s c h
        refine ⟨_, ho, rfl, fun hb => ?_⟩
        have h1 := hb.1
        exact ⟨by show 0 ≤ s.SelectedLink + 1; omega,
               by show s.SelectedLink + 1 < (s.Links.length : Int); omega⟩
      · exact ⟨_, HandleInput_down_stay s c h, rfl, id⟩
    | KeyEnter =>
      by_cases h : SelectionInBounds s
      · exact ⟨_, HandleInput_enter_valid s c h, rfl, id⟩
      · refine ⟨_, HandleInput_enter_invalid s c h, ?_, ?_⟩
        · rw [afterSwitch_state]
        · rw [afterSwitch_state]; exact id
    | other code =>
      refine ⟨_, HandleInput_other s c code, ?_, ?_⟩
      · rw [afterSwitch_state]
      · rw [afterSwitch_state]; exact id

theorem runKeys_spec (keys : List KeyRead) :
    ∀ s : BrowserState, SelectionInBounds s →
      ∃ s', runKeys s keys = some s' ∧ s'.Links = s.Links ∧ SelectionInBounds s' := by
  induction keys with
  | nil => intro s hs; exact ⟨s, rfl, rfl, hs⟩
  | cons read rest ih =>
    intro s hs
    obtain ⟨r, hr, hl, hb⟩ := HandleInput_spec s read
    obtain ⟨s', hs', hl', hb'⟩ := ih r.state (hb hs)
    exact ⟨s', by simp [runKeys, hr, hs'], hl'.trans hl, hb'⟩

theorem CaptureAndDisplayWebpage_success (shot img : List Nat) (seq : List Link)
    (state : BrowserState) :
    ∃ out, CaptureAndDisplayWebpage (CaptureEnv.success shot img seq) state =
      some { state := { state with Links := seq, SelectedLink := 0 }, err := none,
             out := out } := by
  by_cases h : (seq.length : Int) > 0
  · obtain ⟨evs, hevs⟩ := DisplaySelectedLink_isSome { state with Links := seq, SelectedLink := 0 }
    exact ⟨[Event.screenshot, Event.resetTerminal, Event.pageLinks, Event.image img] ++ evs,
      by simp [CaptureAndDisplayWebpage, CaptureEnv.success, h, hevs]⟩
  · exact ⟨[Event.screenshot, Event.resetTerminal, Event.pageLinks, Event.image img],
      by simp only [CaptureAndDisplayWebpage, CaptureEnv.success, h, if_false]⟩

theorem runKeys_downs (downs : List KeyRead)
    (hd : ∀ r ∈ downs, r.key = Key.KeyArrowDown ∧ r.err = none) :
    ∀ s : BrowserState, SelectionInBounds s →
      runKeys s downs = some { s with
        SelectedLink := min (s.SelectedLink + (downs.length : Int))
          ((s.Links.length : Int) - 1) } := by
  induction downs with
  | nil =>
    intro s hs
    have h2 := hs.2
    have : min (s.SelectedLink + ((([] : List KeyRead).length : Nat) : Int))
        ((s.Links.length : Int) - 1) = s.SelectedLink := by
      simp only [List.length_nil, Nat.cast_zero, add_zero]
      exact min_eq_left (by omega)
    rw [this]; rfl
  | cons read rest ih =>
    intro s hs
    obtain ⟨c, k, e⟩ := read
    obtain ⟨hk, he⟩ := hd ⟨c, k, e⟩ (List.mem_cons_self _ _)
    simp only at hk he
    subst hk; subst he
    have hrest : ∀ r ∈ rest, r.key = Key.KeyArrowDown ∧ r.err = none :=
      fun r hr => hd r (List.mem_cons_of_mem _ hr)
    have h1 := hs.1
    have h2 := hs.2
    by_cases h : s.SelectedLink < (s.Links.length : Int) - 1
    · obtain ⟨out, ho⟩ := HandleInput_down_move s c h
      have hb : SelectionInBounds { s with SelectedLink := s.SelectedLink + 1 } :=
        ⟨by show 0 ≤ s.SelectedLink + 1; omega,
         by show s.SelectedLink + 1 < (s.Links.length : Int); omega⟩
      have := ih hrest _ hb
      simp only [runKeys, ho, this, List.length_cons, Nat.cast_add, Nat.cast_one]
      congr 2
      omega
    · have ho := HandleInput_down_stay s c h
      have := ih hrest s hs
      simp only [runKeys, ho, this, List.length_cons, Nat.cast_add, Nat.cast_one]
      congr 2
      rw [min_eq_right (by omega), min_eq_right (by omega)]

theorem StartsWith_iff_data (s p : String) : StartsWith s p ↔ p.data <+: s.data := by
  constructor
  · rintro ⟨t, rfl⟩
    rw [String.data_append]
    exact List.prefix_append _ _
  · rintro ⟨l, hl⟩
    exact ⟨⟨l⟩, String.ext_iff.mpr (by rw [String.data_append, hl])⟩

theorem HasPrefix_eq (s p : String) : HasPrefix s p = some (decide (p.data <+: s.data)) := by
  by_cases hlt : s.length < p.length
  · have hnp : ¬ p.data <+: s.data := fun hp => by
      have h1 := hp.length_le
      have h2 : s.data.length < p.data.length := hlt
      omega
    simp [HasPrefix, hlt, hnp]
  · have hle : p.length ≤ s.length := not_lt.mp hlt
    have hiff : ((⟨(s.data.take p.length).drop 0⟩ : String) = p) ↔ p.data <+: s.data := by
      rw [String.ext_iff, List.prefix_iff_eq_take]
      simp only [List.drop_zero]
      exact eq_comm
    simp only [HasPrefix, hlt, if_false, goSlice, Nat.zero_le, hle, and_self, if_true]
    congr 1
    exact decide_eq_decide.mpr hiff

theorem HasPrefix_true_iff (s p : String) : HasPrefix s p = some true ↔ StartsWith s p := by
  rw [HasPrefix_eq, StartsWith_iff_data]
  simp

theorem HasPrefix_false_iff (s p : String) : HasPrefix s p = some false ↔ ¬ StartsWith s p := by
  rw [HasPrefix_eq, StartsWith_iff_data]
  simp

theorem ensureScheme_keep (s : String)
    (h : StartsWith s "http://" ∨ StartsWith s "https://") : main.ensureScheme s = some s := by
  by_cases h1 : StartsWith s "http://"
  · simp only [main.ensureScheme, (HasPrefix_true_iff s "http://").mpr h1]
  · have h2 : StartsWith s "https://" := h.resolve_left h1
    simp only [main.ensureScheme, (HasPrefix_false_iff s "http://").mpr h1,
      (HasPrefix_true_iff s "https://").mpr h2]

theorem ensureScheme_prepend (s : String)
    (h : ¬ (StartsWith s "http://" ∨ StartsWith s "https://")) :
    main.ensureScheme s = some ("https://" ++ s) := by
  have h1 : ¬ StartsWith s "http://" := fun x => h (Or.inl x)
  have h2 : ¬ StartsWith s "https://" := fun x => h (Or.inr x)
  simp only [main.ensureScheme, (HasPrefix_false_iff s "http://").mpr h1,
    (HasPrefix_false_iff s "https://").mpr h2]

theorem BrowseURL_trace_head (c : Collab) (calls : Calls) (url : String) (state : BrowserState)
    (keys : List KeyRead) :
    ∃ t, (BrowseURL c calls url state keys).trace = Event.navigate url :: t := by
  cases hn : c.navigate calls.nav url with
  | some e => simp only [BrowseURL, hn]; exact ⟨_, rfl⟩
  | none =>
    cases hc : CaptureAndDisplayWebpage (c.capture calls.cap) state with
    | none => simp only [BrowseURL, hn, hc]; exact ⟨_, rfl⟩
    | some r =>
      cases he : r.err with
      | some e => simp only [BrowseURL, hn, hc, he]; exact ⟨_, rfl⟩
      | none => simp only [BrowseURL, hn, hc, he]; exact ⟨_, rfl⟩

theorem loop_browse (c : Collab) (calls : Calls) (state : BrowserState) (line url : String)
    (lines : List String) (keys : List KeyRead) (h : main.loopStep line = LoopStep.browse url) :
    ∃ t, main.loop c calls state (line :: lines) keys =
      Event.prompt :: (BrowseURL c calls url state keys).trace ++ t := by
  simp only [main.loop, h]
  split
  · exact ⟨_, rfl⟩
  · exact ⟨[], by simp⟩

theorem loop_prompt_first (c : Collab) (calls : Calls) (state : BrowserState)
    (lines : List String) (keys : List KeyRead) :
    ∃ t, main.loop c calls state lines keys = Event.prompt :: t := by
  cases lines with
  | nil => exact ⟨[], rfl⟩
  | cons line lines =>
    simp only [main.loop]
    split
    · exact ⟨_, rfl⟩
    · exact ⟨_, rfl⟩
    · split
      · exact ⟨_, rfl⟩
      · exact ⟨_, rfl⟩

theorem inputLoop_idle_step (c : Collab) (calls : Calls) (url : String) (s : BrowserState)
    (k : KeyRead) (keys : List KeyRead) (rk : InputResult) (hk : HandleInput s k = some rk)
    (hidle : rk.err.isSome ∨ (rk.quit = false ∧ rk.reload = false)) :
    BrowseURL.inputLoop c calls url s (k :: keys) =
      { BrowseURL.inputLoop c calls url rk.state keys with
        trace := Event.key :: rk.out ++ (BrowseURL.inputLoop c calls url rk.state keys).trace } := by
  cases he : rk.err with
  | some e => simp only [BrowseURL.inputLoop, hk, he]
  | none =>
    rw [he] at hidle
    have h2 : rk.quit = false ∧ rk.reload = false := by
      rcases hidle with h | h
      · exact absurd h (by simp)
      · exact h
    simp [BrowseURL.inputLoop, hk, he, h2.1, h2.2]

theorem idleKeys_cons (s s1 : BrowserState) (k : KeyRead) (pre : List KeyRead)
    (h : idleKeys s (k :: pre) = some s1) :
    ∃ rk, HandleInput s k = some rk ∧
      (rk.err.isSome ∨ (rk.quit = false ∧ rk.reload = false)) ∧
      idleKeys rk.state pre = some s1 := by
  cases hk : HandleInput s k with
  | none => simp [idleKeys, hk] at h
  | some rk =>
    by_cases hc : rk.err.isSome ∨ (rk.quit = false ∧ rk.reload = false)
    · refine ⟨rk, rfl, hc, ?_⟩
      simpa only [idleKeys, hk, hc, if_true] using h
    · simp only [idleKeys, hk, hc, if_false] at h
      exact absurd h (by simp)

theorem inputLoop_quit (c : Collab) (calls : Calls) (url : String) (pre : List KeyRead) :
    ∀ (s s1 : BrowserState) (read : KeyRead) (rest : List KeyRead) (r : InputResult),
      idleKeys s pre = some s1 → HandleInput s1 read = some r → r.err = none →
      r.quit = true →
      (BrowseURL.inputLoop c calls url s (pre ++ read :: rest)).outcome = Outcome.returned ∧
      (BrowseURL.inputLoop c calls url s (pre ++ read :: rest)).shouldQuit = true ∧
      (BrowseURL.inputLoop c calls url s (pre ++ read :: rest)).keys = rest ∧
      (BrowseURL.inputLoop c calls url s (pre ++ read :: rest)).calls = calls ∧
      (BrowseURL.inputLoop c calls url s (pre ++ read :: rest)).state = r.state := by
  induction pre with
  | nil =>
    intro s s1 read rest r hidle hr he hq
    have hs : s = s1 := by simpa [idleKeys] using hidle
    subst hs
    simp [BrowseURL.inputLoop, hr, he, hq]
  | cons k pre ih =>
    intro s s1 read rest r hidle hr he hq
    obtain ⟨rk, hk, hc, hrest⟩ := idleKeys_cons s s1 k pre hidle
    have := ih rk.state s1 read rest r hrest hr he hq
    rw [List.cons_append, inputLoop_idle_step c calls url s k _ rk hk hc]
    exact this

theorem inputLoop_reload (c : Collab) (calls : Calls) (url : String) (pre : List KeyRead) :
    ∀ (s s1 : BrowserState) (read : KeyRead) (rest : List KeyRead) (r : InputResult),
      idleKeys s pre = some s1 → HandleInput s1 read = some r → r.err = none →
      r.quit = false → r.reload = true →
      (BrowseURL.inputLoop c calls url s (pre ++ read :: rest)).outcome = Outcome.returned ∧
      (BrowseURL.inputLoop c calls url s (pre ++ read :: rest)).shouldQuit = false ∧
      (BrowseURL.inputLoop c calls url s (pre ++ read :: rest)).keys = rest ∧
      (BrowseURL.inputLoop c calls url s (pre ++ read :: rest)).calls =
        { calls with loc := calls.loc + 1 } ∧
      (BrowseURL.inputLoop c calls url s (pre ++ read :: rest)).state = r.state := by
  induction pre with
  | nil =>
    intro s s1 read rest r hidle hr he hq hrl
    have hs : s = s1 := by simpa [idleKeys] using hidle
    subst hs
    cases hloc : c.location calls.loc with
    | error e => simp [BrowseURL.inputLoop, hr, he, hq, hrl, hloc]
    | ok u => simp [BrowseURL.inputLoop, hr, he, hq, hrl, hloc]
  | cons k pre ih =>
    intro s s1 read rest r hidle hr he hq hrl
    obtain ⟨rk, hk, hc, hrest⟩ := idleKeys_cons s s1 k pre hidle
    have := ih rk.state s1 read rest r hrest hr he hq hrl
    rw [List.cons_append, inputLoop_idle_step c calls url s k _ rk hk hc]
    exact this

/-- The input loop never navigates and never captures. -/
theorem inputLoop_calls (c : Collab) (calls : Calls) (url : String) (keys : List KeyRead) :
    ∀ s : BrowserState,
      (BrowseURL.inputLoop c calls url s keys).calls.nav = calls.nav ∧
      (BrowseURL.inputLoop c calls url s keys).calls.cap = calls.cap := by
  induction keys with
  | nil => intro s; exact ⟨rfl, rfl⟩
  | cons k keys ih =>
    intro s
    cases hk : HandleInput s k with
    | none => simp [BrowseURL.inputLoop, hk]
    | some rk =>
      by_cases hc : rk.err.isSome ∨ (rk.quit = false ∧ rk.reload = false)
      · rw [inputLoop_idle_step c calls url s k keys rk hk hc]
        exact ih rk.state
      · have he : rk.err = none := by
          cases h : rk.err with
          | none => rfl
          | some e => exact absurd (Or.inl (by simp [h])) hc
        by_cases hq : rk.quit = true
        · simp [BrowseURL.inputLoop, hk, he, hq]
        · have hq' : rk.quit = false := by simpa using hq
          have hrl : rk.reload = true := by
            cases h : rk.reload with
            | true => rfl
            | false => exact absurd (Or.inr ⟨hq', h⟩) hc
          cases hloc : c.location calls.loc with
          | error e => simp [BrowseURL.inputLoop, hk, he, hq', hrl, hloc]
          | ok u => simp [BrowseURL.inputLoop, hk, he, hq', hrl, hloc]

/-- One call of `BrowseURL` navigates once and captures at most once, whatever
the keys. -/
theorem BrowseURL_calls (c : Collab) (calls : Calls) (url : String) (state : BrowserState)
    (keys : List KeyRead) :
    (BrowseURL c calls url state keys).calls.nav = calls.nav + 1 ∧
    (BrowseURL c calls url state keys).calls.cap ≤ calls.cap + 1 := by
  cases hn : c.navigate calls.nav url with
  | some e => simp [BrowseURL, hn]
  | none =>
    cases hc : CaptureAndDisplayWebpage (c.capture calls.cap) state with
    | none => simp [BrowseURL, hn, hc]
    | some r =>
      cases he : r.err with
      | some e => simp [BrowseURL, hn, hc, he]
      | none =>
        have h := inputLoop_calls c { nav := calls.nav + 1, cap := calls.cap + 1, loc := calls.loc }
          url keys r.state
        simp only [BrowseURL, hn, hc, he]
        exact ⟨h.1, le_of_eq h.2⟩

/-! ## Claims -/

/-- C1. Selection-bounds invariant: `HandleInput` on any key read (arrow,
Enter, raw character or failed read) returns, keeps the link sequence and keeps
`0 ≤ SelectedLink < len(Links)`; a successful `CaptureAndDisplayWebpage` with a
non-empty link sequence establishes it; so it holds after any finite sequence
of key reads handled from a capture. -/
theorem selection_bounds_invariant (s : BrowserState) (read : KeyRead)
    (hs : SelectionInBounds s)
    (s0 : BrowserState) (shot img : List Nat) (seq : List Link) (keys : List KeyRead)
    (hseq : 0 < seq.length) :
    (∃ r, HandleInput s read = some r ∧ r.state.Links = s.Links ∧
      r.state.Links.length = s.Links.length ∧ SelectionInBounds r.state) ∧
    (∃ c, CaptureAndDisplayWebpage (CaptureEnv.success shot img seq) s0 = some c ∧
      c.err = none ∧ SelectionInBounds c.state ∧
      ∃ s', runKeys c.state keys = some s' ∧ s'.Links = seq ∧ SelectionInBounds s') := by
  constructor
  · obtain ⟨r, hr, hl, hb⟩ := HandleInput_spec s read
    exact ⟨r, hr, hl, by rw [hl], hb hs⟩
  · obtain ⟨out, ho⟩ := CaptureAndDisplayWebpage_success shot img seq s0
    have hb : SelectionInBounds { s0 with Links := seq, SelectedLink := 0 } :=
      ⟨le_refl _, by show (0 : Int) < (seq.length : Int); exact_mod_cast hseq⟩
    obtain ⟨s', hs', hl', hb'⟩ := runKeys_spec keys _ hb
    exact ⟨_, ho, rfl, hb, s', hs', hl', hb'⟩

/-- C2. Installing links: a successful `CaptureAndDisplayWebpage` whose
`GetPageLinks` result is `seq` (of any length, the empty one included), from
any prior state, leaves `GetSelectedLink() = 0`, `GetTotalLinks() = len(seq)`,
the stored sequence equal to `seq`, and the viewport size untouched. -/
theorem install_links (prior : BrowserState) (shot img : List Nat) (seq : List Link) :
    ∃ c, CaptureAndDisplayWebpage (CaptureEnv.success shot img seq) prior = some c ∧
      c.err = none ∧
      c.state.GetSelectedLink = 0 ∧
      c.state.GetTotalLinks = (seq.length : Int) ∧
      c.state.Links = seq ∧
      c.state.ViewportWidth = prior.ViewportWidth ∧
      c.state.ViewportHeight = prior.ViewportHeight := by
  obtain ⟨out, ho⟩ := CaptureAndDisplayWebpage_success shot img seq prior
  exact ⟨_, ho, rfl, rfl, rfl, rfl, rfl, rfl⟩

/-- C3. `GetLinkURL` is total and order-preserving: for every state and every
integer index it returns a string (the indexing never panics); the string is
the URL of the `k`-th link when the index is `k` with `0 ≤ k < len(Links)`, and
it is empty when the index is negative or at least `len(Links)`.  The method
reads its receiver only, so there is no state after the call other than the
state before it. -/
theorem GetLinkURL_total_order_preserving (s : BrowserState) (i : Int) :
    (∃ u, s.GetLinkURL i = some u) ∧
    (∀ (k : Nat) (hk : k < s.Links.length), i = (k : Int) →
      s.GetLinkURL i = some (s.Links.get ⟨k, hk⟩).URL) ∧
    ((i < 0 ∨ (s.Links.length : Int) ≤ i) → s.GetLinkURL i = some "") := by
  refine ⟨GetLinkURL_isSome s i, ?_, GetLinkURL_outside s i⟩
  intro k hk hi
  subst hi
  exact GetLinkURL_natCast s k hk

/-- C3 at the second of the three example links. -/
theorem GetLinkURL_total_order_preserving_witness :
    (1 : Int) = ((1 : Nat) : Int) ∧
    exampleState.GetLinkURL 1 = some "https://example.com/B" :=
  ⟨by decide,
   (GetLinkURL_total_order_preserving exampleState 1).2.1 1 (by decide) (by decide)⟩

/-- C5. Arrow keys: on ArrowUp, `HandleInput` sets `SelectedLink` to
`SelectedLink - 1` when `SelectedLink > 0` and leaves the state as it is when
`SelectedLink = 0`; on ArrowDown it sets `SelectedLink` to `SelectedLink + 1`
when `SelectedLink < GetTotalLinks() - 1` and leaves the state as it is when
`SelectedLink = GetTotalLinks() - 1`.  In all four cases the links are the
same and the result is `(false, false, nil)`. -/
theorem arrow_keys_step (s : BrowserState) (c : Nat) :
    (s.SelectedLink > 0 →
      ∃ r, HandleInput s ⟨c, Key.KeyArrowUp, none⟩ = some r ∧
        r.state = { s with SelectedLink := s.SelectedLink - 1 } ∧
        r.state.Links = s.Links ∧ r.quit = false ∧ r.reload = false ∧ r.err = none) ∧
    (s.SelectedLink = 0 →
      ∃ r, HandleInput s ⟨c, Key.KeyArrowUp, none⟩ = some r ∧
        r.state = s ∧ r.quit = false ∧ r.reload = false ∧ r.err = none) ∧
    (s.SelectedLink < s.GetTotalLinks - 1 →
      ∃ r, HandleInput s ⟨c, Key.KeyArrowDown, none⟩ = some r ∧
        r.state = { s with SelectedLink := s.SelectedLink + 1 } ∧
        r.state.Links = s.Links ∧ r.quit = false ∧ r.reload = false ∧ r.err = none) ∧
    (s.SelectedLink = s.GetTotalLinks - 1 →
      ∃ r, HandleInput s ⟨c, Key.KeyArrowDown, none⟩ = some r ∧
        r.state = s ∧ r.quit = false ∧ r.reload = false ∧ r.err = none) := by
  refine ⟨fun h => ?_, fun h => ?_, fun h => ?_, fun h => ?_⟩
  · obtain ⟨out, ho⟩ := HandleInput_up_move s c h
    exact ⟨_, ho, rfl, rfl, rfl, rfl, rfl⟩
  · exact ⟨_, HandleInput_up_stay s c (by omega), rfl, rfl, rfl, rfl⟩
  · obtain ⟨out, ho⟩ := HandleInput_down_move s c h
    exact ⟨_, ho, rfl, rfl, rfl, rfl, rfl⟩
  · have h' : ¬ s.SelectedLink < (s.Links.length : Int) - 1 := by
      have : s.SelectedLink = (s.Links.length : Int) - 1 := h
      omega
    exact ⟨_, HandleInput_down_stay s c h', rfl, rfl, rfl, rfl⟩

/-- C6. Repeated ArrowDown clamps at the last link and Enter then signals
activation: after a capture that installs `n ≥ 1` links, `k` successive
ArrowDown reads leave the selected index at `min(k, n - 1)`, and `HandleInput`
on Enter in that state returns `(quit = false, reload = true, nil)` with the
state as it was. -/
theorem arrow_down_clamps_then_enter (prior : BrowserState) (shot img : List Nat)
    (seq : List Link) (downs : List KeyRead) (c : Nat)
    (hseq : 1 ≤ seq.length)
    (hd : ∀ r ∈ downs, r.key = Key.KeyArrowDown ∧ r.err = none) :
    ∃ cap s', CaptureAndDisplayWebpage (CaptureEnv.success shot img seq) prior = some cap ∧
      cap.state.SelectedLink = 0 ∧
      runKeys cap.state downs = some s' ∧
      s'.Links = seq ∧
      s'.SelectedLink = min (downs.length : Int) ((seq.length : Int) - 1) ∧
      ∃ r, HandleInput s' ⟨c, Key.KeyEnter, none⟩ = some r ∧
        r.quit = false ∧ r.reload = true ∧ r.err = none ∧ r.state = s' := by
  obtain ⟨out, ho⟩ := CaptureAndDisplayWebpage_success shot img seq prior
  have hlen : (0 : Int) < (seq.length : Int) := by exact_mod_cast hseq
  have hb : SelectionInBounds { prior with Links := seq, SelectedLink := 0 } :=
    ⟨le_refl _, hlen⟩
  have hrun := runKeys_downs downs hd _ hb
  simp only [zero_add] at hrun
  refine ⟨_, _, ho, rfl, hrun, rfl, rfl, ?_⟩
  have hb' : SelectionInBounds
      { prior with Links := seq, SelectedLink := min (downs.length : Int) ((seq.length : Int) - 1) } := by
    constructor
    · show 0 ≤ min (downs.length : Int) ((seq.length : Int) - 1)
      exact le_min (by omega) (by omega)
    · show min (downs.length : Int) ((seq.length : Int) - 1) < (seq.length : Int)
      exact lt_of_le_of_lt (min_le_right _ _) (by omega)
  exact ⟨_, HandleInput_enter_valid _ c hb', rfl, rfl, rfl, rfl⟩

/-- C8. Quit key: for every state and every raw-character key read (a key that
is none of ArrowUp, ArrowDown, Enter) whose character is `q` or `Q`,
`HandleInput` returns `(quit = true, reload = false, nil)` and leaves the state
as it is. -/
theorem quit_character_quits (s : BrowserState) (c code : Nat) (hc : c = 'q'.toNat ∨ c = 'Q'.toNat) :
    HandleInput s ⟨c, Key.other code, none⟩ =
      some { state := s, quit := true, reload := false, err := none, out := [] } := by
  rw [HandleInput_other]
  simp only [HandleInput.afterSwitch, hc, if_true]

/-- C1 at the three example links. -/
theorem selection_bounds_invariant_witness :
    SelectionInBounds exampleState ∧ 0 < exampleLinks.length ∧
    ((∃ r, HandleInput exampleState arrowDown = some r ∧ r.state.Links = exampleState.Links ∧
        r.state.Links.length = exampleState.Links.length ∧ SelectionInBounds r.state) ∧
     (∃ c, CaptureAndDisplayWebpage (CaptureEnv.success [1] [1] exampleLinks)
          (NewBrowserState 1024 800) = some c ∧
        c.err = none ∧ SelectionInBounds c.state ∧
        ∃ s', runKeys c.state [arrowDown, arrowDown, arrowDown, arrowUp, enter] = some s' ∧
          s'.Links = exampleLinks ∧ SelectionInBounds s')) :=
  ⟨by decide, by decide,
   selection_bounds_invariant exampleState arrowDown (by decide) (NewBrowserState 1024 800)
     [1] [1] exampleLinks [arrowDown, arrowDown, arrowDown, arrowUp, enter] (by decide)⟩

/-- C5 at ArrowUp with the second of three links selected. -/
theorem arrow_keys_step_witness :
    exampleState.SelectedLink > 0 ∧
    ∃ r, HandleInput exampleState ⟨0, Key.KeyArrowUp, none⟩ = some r ∧
      r.state = { exampleState with SelectedLink := exampleState.SelectedLink - 1 } ∧
      r.state.Links = exampleState.Links ∧ r.quit = false ∧ r.reload = false ∧ r.err = none :=
  ⟨by decide, (arrow_keys_step exampleState 0).1 (by decide)⟩

/-- C6 at the scenario of three links and three ArrowDown reads. -/
theorem arrow_down_clamps_then_enter_witness :
    1 ≤ exampleLinks.length ∧
    (∀ r ∈ [arrowDown, arrowDown, arrowDown], r.key = Key.KeyArrowDown ∧ r.err = none) ∧
    ∃ cap s', CaptureAndDisplayWebpage (CaptureEnv.success [1] [1] exampleLinks)
        (NewBrowserState 1024 800) = some cap ∧
      cap.state.SelectedLink = 0 ∧
      runKeys cap.state [arrowDown, arrowDown, arrowDown] = some s' ∧
      s'.Links = exampleLinks ∧
      s'.SelectedLink =
        min (([arrowDown, arrowDown, arrowDown].length : Nat) : Int)
          ((exampleLinks.length : Int) - 1) ∧
      ∃ r, HandleInput s' ⟨0, Key.KeyEnter, none⟩ = some r ∧
        r.quit = false ∧ r.reload = true ∧ r.err = none ∧ r.state = s' :=
  ⟨by decide, by decide,
   arrow_down_clamps_then_enter (NewBrowserState 1024 800) [1] [1] exampleLinks
     [arrowDown, arrowDown, arrowDown] 0 (by decide) (by decide)⟩

/-- C8 at the character `q` with the second of three links selected. -/
theorem quit_character_quits_witness :
    ((113 : Nat) = 'q'.toNat ∨ (113 : Nat) = 'Q'.toNat) ∧
    HandleInput exampleState ⟨113, Key.other 0, none⟩ =
      some { state := exampleState, quit := true, reload := false, err := none, out := [] } :=
  ⟨by decide, quit_character_quits exampleState 113 0 (by decide)⟩

/-- C7, as stated, fails: with an empty link sequence and the selected index
at 5, ArrowUp moves the index to 4; with the index at -5, ArrowDown moves it to
-4. -/
theorem empty_page_arrow_moves_selection :
    (⟨1024, 800, 0, 0, [], 5⟩ : BrowserState).GetTotalLinks = 0 ∧
    HandleInput ⟨1024, 800, 0, 0, [], 5⟩ arrowUp =
      some { state := ⟨1024, 800, 0, 0, [], 4⟩, quit := false, reload := false, err := none,
             out := [] } ∧
    HandleInput ⟨1024, 800, 0, 0, [], -5⟩ arrowDown =
      some { state := ⟨1024, 800, 0, 0, [], -4⟩, quit := false, reload := false, err := none,
             out := [] } := by
  decide

/-- C7, amended. Empty page: for every state whose link sequence is empty,
ArrowUp leaves the state as it is when the selected index is at most 0,
ArrowDown leaves the state as it is when the selected index is at least -1
(both hold at the index 0 that a capture installs), and Enter, whatever the
selected index, does not return `reload = true` and leaves the state as it
is. -/
theorem empty_page_keys (s : BrowserState) (c : Nat) (e : Option String)
    (hl : s.GetTotalLinks = 0) :
    (s.SelectedLink ≤ 0 →
      HandleInput s ⟨c, Key.KeyArrowUp, none⟩ =
        some { state := s, quit := false, reload := false, err := none, out := [] }) ∧
    (-1 ≤ s.SelectedLink →
      HandleInput s ⟨c, Key.KeyArrowDown, none⟩ =
        some { state := s, quit := false, reload := false, err := none, out := [] }) ∧
    (∃ r, HandleInput s ⟨c, Key.KeyEnter, e⟩ = some r ∧ r.reload = false ∧ r.state = s) := by
  have hl' : (s.Links.length : Int) = 0 := hl
  refine ⟨fun h => HandleInput_up_stay s c (by omega),
          fun h => HandleInput_down_stay s c (by omega), ?_⟩
  cases e with
  | some e => exact ⟨_, HandleInput_readError s c Key.KeyEnter e, rfl, rfl⟩
  | none =>
    have hb : ¬ SelectionInBounds s := fun hb => by
      have h1 := hb.1
      have h2 := hb.2
      omega
    exact ⟨_, HandleInput_enter_invalid s c hb, afterSwitch_reload s c, afterSwitch_state s c⟩

/-- C7, amended, at the state the program starts with. -/
theorem empty_page_keys_witness :
    (NewBrowserState 1024 800).GetTotalLinks = 0 ∧
    (NewBrowserState 1024 800).SelectedLink ≤ 0 ∧
    HandleInput (NewBrowserState 1024 800) ⟨0, Key.KeyArrowUp, none⟩ =
      some { state := NewBrowserState 1024 800, quit := false, reload := false, err := none,
             out := [] } :=
  ⟨by decide, by decide, (empty_page_keys (NewBrowserState 1024 800) 0 none (by decide)).1
    (by decide)⟩

/-- C4. URL normalization in the main loop.  `HasPrefix(s, p)` never panics
and is true exactly when `p` is a prefix of `s`.  For an entered line `s` other
than `quit`, the URL handed to `BrowseURL` (and navigated to first) is `s` when
`s` starts with `http://` or with `https://`, and `https://` followed by `s`
otherwise.  For the line `quit` the loop ends: the trace is the prompt and
the final clear screen, with no call of `BrowseURL`. -/
theorem url_normalization :
    (∀ s p : String, ∃ b, HasPrefix s p = some b ∧ (b = true ↔ StartsWith s p)) ∧
    (∀ s : String, s ≠ "quit" → (StartsWith s "http://" ∨ StartsWith s "https://") →
      main.loopStep s = LoopStep.browse s) ∧
    (∀ s : String, s ≠ "quit" → ¬ (StartsWith s "http://" ∨ StartsWith s "https://") →
      main.loopStep s = LoopStep.browse ("https://" ++ s)) ∧
    (∀ (c : Collab) (calls : Calls) (state : BrowserState) (line url : String)
        (lines : List String) (keys : List KeyRead),
      main.loopStep line = LoopStep.browse url →
      ∃ t t', main.loop c calls state (line :: lines) keys =
          Event.prompt :: (BrowseURL c calls url state keys).trace ++ t ∧
        (BrowseURL c calls url state keys).trace = Event.navigate url :: t') ∧
    main.loopStep "example.com" = LoopStep.browse "https://example.com" ∧
    main.loopStep "http://example.com" = LoopStep.browse "http://example.com" ∧
    main.loopStep "https://example.com" = LoopStep.browse "https://example.com" ∧
    main.loopStep "quit" = LoopStep.leave ∧
    (∀ (c : Collab) (calls : Calls) (state : BrowserState) (lines : List String)
        (keys : List KeyRead),
      main.loop c calls state ("quit" :: lines) keys = [Event.prompt, Event.exitClear]) := by
  refine ⟨?_, ?_, ?_, ?_, by decide, by decide, by decide, by decide, ?_⟩
  · intro s p
    refine ⟨_, HasPrefix_eq s p, ?_⟩
    rw [StartsWith_iff_data]
    simp
  · intro s hq h
    simp only [main.loopStep, hq, if_false, ensureScheme_keep s h]
  · intro s hq h
    simp only [main.loopStep, hq, if_false, ensureScheme_prepend s h]
  · intro c calls state line url lines keys h
    obtain ⟨t, ht⟩ := loop_browse c calls state line url lines keys h
    obtain ⟨t', ht'⟩ := BrowseURL_trace_head c calls url state keys
    exact ⟨t, t', ht, ht'⟩
  · intro c calls state lines keys
    have h : main.loopStep "quit" = LoopStep.leave := by decide
    simp only [main.loop, h]

/-- C4 at the line `example.org/a`, which has no scheme. -/
theorem url_normalization_witness :
    "example.org/a" ≠ "quit" ∧
    ¬ (StartsWith "example.org/a" "http://" ∨ StartsWith "example.org/a" "https://") ∧
    main.loopStep "example.org/a" = LoopStep.browse ("https://" ++ "example.org/a") :=
  have h : ¬ (StartsWith "example.org/a" "http://" ∨ StartsWith "example.org/a" "https://") := by
    simp only [StartsWith_iff_data]
    decide
  ⟨by decide, h, url_normalization.2.2.1 "example.org/a" (by decide) h⟩

/-- C9, the code at a failing input.  The user enters `example.com`, presses
Enter on the first link, and would then enter `quit`.  `HandleInput` returns
`reload = true` and the location query succeeds, yet `BrowseURL` returns
without navigating or capturing again: the next event after the location
query is the URL prompt.  In `BrowseURL` the queried location only ends up in
the local `url`, which nothing reads afterwards, and over the whole run there
is one navigation and one capture. -/
theorem reload_returns_to_prompt :
    HandleInput { NewBrowserState 1024 800 with Links := exampleLinks } enter =
      some { state := { NewBrowserState 1024 800 with Links := exampleLinks }, quit := false,
             reload := true, err := none, out := [Event.navigatingNotice] } ∧
    main exampleCollab ["example.com", "quit"] [enter] =
      [Event.prompt,
       Event.navigate "https://example.com",
       Event.screenshot, Event.resetTerminal, Event.pageLinks, Event.image [137, 80],
       Event.statusLine 1 3 "https://example.com/A",
       Event.key, Event.navigatingNotice,
       Event.location,
       Event.prompt,
       Event.exitClear] ∧
    (BrowseURL exampleCollab ⟨0, 0, 0⟩ "https://example.com" (NewBrowserState 1024 800)
      [enter]).outcome = Outcome.returned ∧
    (BrowseURL exampleCollab ⟨0, 0, 0⟩ "https://example.com" (NewBrowserState 1024 800)
      [enter]).url = "https://example.com/" ∧
    (BrowseURL exampleCollab ⟨0, 0, 0⟩ "https://example.com" (NewBrowserState 1024 800)
      [enter]).calls = ⟨1, 1, 1⟩ := by
  decide

/-- C10, as stated, fails: the user enters `example.com`, presses `q` while the
page is displayed, and the main loop displays the URL prompt again; the next
line `example.org` is navigated to, and only the line `quit` ends the
session. -/
theorem browsing_quit_prompts_again :
    main exampleCollab ["example.com", "example.org", "quit"] [charQ, charQ] =
      [Event.prompt,
       Event.navigate "https://example.com",
       Event.screenshot, Event.resetTerminal, Event.pageLinks, Event.image [137, 80],
       Event.statusLine 1 3 "https://example.com/A",
       Event.key,
       Event.prompt,
       Event.navigate "https://example.org",
       Event.screenshot, Event.resetTerminal, Event.pageLinks, Event.image [137, 80],
       Event.statusLine 1 3 "https://example.com/A",
       Event.key,
       Event.prompt,
       Event.exitClear] := by
  decide

/-- C10, amended.  Quit from browsing ends the browsing of the page, not the
session: when, in the input loop of `BrowseURL` (after a successful navigation
and capture, and after any number of key reads that make the loop go round
again), `HandleInput` returns `quit = true`, `BrowseURL` returns with
`shouldQuit` set, having made no further browser call (one navigation, one
capture, no location query), and the main loop goes on with the remaining
lines and keys, which starts by displaying the URL prompt again. -/
theorem quit_from_browsing_returns_to_prompt (c : Collab) (calls : Calls)
    (state : BrowserState) (line url : String) (lines : List String)
    (pre : List KeyRead) (read : KeyRead) (rest : List KeyRead)
    (cap : CaptureResult) (s1 : BrowserState) (r : InputResult)
    (hline : main.loopStep line = LoopStep.browse url)
    (hnav : c.navigate calls.nav url = none)
    (hcap : CaptureAndDisplayWebpage (c.capture calls.cap) state = some cap)
    (hcapok : cap.err = none)
    (hidle : idleKeys cap.state pre = some s1)
    (hr : HandleInput s1 read = some r) (he : r.err = none) (hq : r.quit = true) :
    (BrowseURL c calls url state (pre ++ read :: rest)).outcome = Outcome.returned ∧
    (BrowseURL c calls url state (pre ++ read :: rest)).shouldQuit = true ∧
    (BrowseURL c calls url state (pre ++ read :: rest)).keys = rest ∧
    (BrowseURL c calls url state (pre ++ read :: rest)).calls =
      { nav := calls.nav + 1, cap := calls.cap + 1, loc := calls.loc } ∧
    main.loop c calls state (line :: lines) (pre ++ read :: rest) =
      Event.prompt :: (BrowseURL c calls url state (pre ++ read :: rest)).trace ++
        main.loop c (BrowseURL c calls url state (pre ++ read :: rest)).calls
          (BrowseURL c calls url state (pre ++ read :: rest)).state lines rest ∧
    ∃ t, main.loop c (BrowseURL c calls url state (pre ++ read :: rest)).calls
        (BrowseURL c calls url state (pre ++ read :: rest)).state lines rest =
      Event.prompt :: t := by
  obtain ⟨h1, h2, h3, h4, _⟩ :=
    inputLoop_quit c { nav := calls.nav + 1, cap := calls.cap + 1, loc := calls.loc } url pre
      cap.state s1 read rest r hidle hr he hq
  have ho : (BrowseURL c calls url state (pre ++ read :: rest)).outcome = Outcome.returned := by
    simp only [BrowseURL, hnav, hcap, hcapok]; exact h1
  have hk : (BrowseURL c calls url state (pre ++ read :: rest)).keys = rest := by
    simp only [BrowseURL, hnav, hcap, hcapok]; exact h3
  refine ⟨ho, ?_, hk, ?_, ?_, loop_prompt_first _ _ _ _ _⟩
  · simp only [BrowseURL, hnav, hcap, hcapok]; exact h2
  · simp only [BrowseURL, hnav, hcap, hcapok]; exact h4
  · simp only [main.loop, hline, ho, hk]

/-- C10, amended, at the run in which `q` is the first key pressed on the page
of `example.com`. -/
theorem quit_from_browsing_returns_to_prompt_witness :
    main.loopStep "example.com" = LoopStep.browse "https://example.com" ∧
    (BrowseURL exampleCollab ⟨0, 0, 0⟩ "https://example.com" (NewBrowserState 1024 800)
      ([] ++ charQ :: [arrowDown])).outcome = Outcome.returned ∧
    (BrowseURL exampleCollab ⟨0, 0, 0⟩ "https://example.com" (NewBrowserState 1024 800)
      ([] ++ charQ :: [arrowDown])).shouldQuit = true ∧
    (BrowseURL exampleCollab ⟨0, 0, 0⟩ "https://example.com" (NewBrowserState 1024 800)
      ([] ++ charQ :: [arrowDown])).keys = [arrowDown] :=
  have h := quit_from_browsing_returns_to_prompt exampleCollab ⟨0, 0, 0⟩
    (NewBrowserState 1024 800) "example.com" "https://example.com" ["quit"] [] charQ [arrowDown]
    { state := { NewBrowserState 1024 800 with Links := exampleLinks }, err := none,
      out := [Event.screenshot, Event.resetTerminal, Event.pageLinks, Event.image [137, 80],
              Event.statusLine 1 3 "https://example.com/A"] }
    { NewBrowserState 1024 800 with Links := exampleLinks }
    { state := { NewBrowserState 1024 800 with Links := exampleLinks }, quit := true,
      reload := false, err := none, out := [] }
    (by decide) (by decide) (by decide) (by decide) (by decide) (by decide) (by decide)
    (by decide)
  ⟨by decide, h.1, h.2.1, h.2.2.1⟩

end Webshell
